import Mathlib

/-!
Verification development for the `epub-gen-rs` package-assembly pipeline
(`src/lib.rs`).  The Rust code is shallowly embedded: `String` models Rust
`String`, `List` models `Vec`, `Option` models a value whose computation can
panic (`none` = the surrounding call panics / aborts), and the zip-writer
collaborator is modelled as a step-indexed list of entries with an explicit
failure oracle for its fallible operations.
-/

namespace EpubGen

/-! ## Slug generator (external collaborator)

Modelled from the spec: §4.1 — the slug generator itself lives in the external
`slugify` crate, outside this repository.  For ASCII titles it lowercases the
input, maps every maximal run of characters other than `a..z`/`0..9` to a
single separator, drops a leading run entirely, and drops one trailing
separator.  Deterministic and total, as §4.1 requires. -/

def isSlugChar (c : Char) : Bool :=
  (decide ('a' ≤ c) && decide (c ≤ 'z')) || (decide ('0' ≤ c) && decide (c ≤ '9'))

/-- Scan of the lowercased characters: keep slug characters, collapse every
other run into one separator (`afterSep` records that a separator, real or
virtual, was just emitted, so leading runs vanish). -/
def slugScan (sep : Char) : List Char → Bool → List Char
  | [], _ => []
  | c :: rest, afterSep =>
    if isSlugChar c then c :: slugScan sep rest false
    else if afterSep then slugScan sep rest afterSep
    else sep :: slugScan sep rest true

/-- ASCII lowercasing of one character (`to_lowercase` restricted to the
ASCII range). -/
def charToLower (c : Char) : Char :=
  if 'A' ≤ c ∧ c ≤ 'Z' then Char.ofNat (c.toNat + 32) else c

def slugify (s : String) (sep : Char) : String :=
  let scanned := slugScan sep (s.data.map charToLower) true
  String.mk (if scanned.getLast? = some sep then scanned.dropLast else scanned)

/-- The default separator of the `slugify!` macro (element ids). -/
def sepDefault : Char := '-'

/-- The `separator = "_"` variant (filenames / hrefs). -/
def sepUnderscore : Char := '_'

/-! ## Data model (`Info`, `EPUB`, lib.rs lines 8-31) -/

structure Info where
  title : String
  description : String
  publisher : String
  author : String
  toc_title : String
  lang : String
  fonts : List String
  css : Option String
  version : Int

structure EPUB where
  info : Info
  chapters : List (List String)

/-- Rust `&chapter[0]`: the chapter title.  Indexing an empty chapter panics in
Rust; every code path below that reads the title of an empty chapter also hits
`reduce(..).unwrap()` on an empty iterator and aborts, so the default value
returned here for `[]` is never observable. -/
def chapterTitle (c : List String) : String := c.headI

/-- `iter().map(..).reduce(|cur, nxt| cur + &nxt + "\n")` (lib.rs lines 53, 80,
104, 128).  `none` models `None` from `reduce` on an empty iterator, whose
`unwrap()` panics.  Note the closure appends the newline AFTER the next
element: it is not a separator-join. -/
def reduceConcatNl : List String → Option String
  | [] => none
  | x :: xs => some (xs.foldl (fun cur nxt => cur ++ nxt ++ "\n") x)

/-! ## Chapter renderer (`write_chapters`, lib.rs lines 44-74) -/

/-- `format!("<p>{}</p>", raw)` (line 52). -/
def wrapP (raw : String) : String := "<p>" ++ raw ++ "</p>"

/-- Lines 49-54: the body built from the elements after the title.
`none` = the `unwrap()` on line 54 panics (title-only chapter). -/
def chapterContent (c : List String) : Option String :=
  reduceConcatNl ((c.drop 1).map wrapP)

/-- The chapter document template (lines 56-68).  Faithful to the source: the
`title` hole is filled with `self.info.title` — the BOOK title — at both the
`<title>` and the `<h1>`, never with the chapter's own title. -/
def chapterTemplate (title lang content : String) : String :=
  "<?xml version=\"1.0\" encoding=\"UTF-8\"?>
<!DOCTYPE html>
<html xmlns=\"http://www.w3.org/1999/xhtml\" xmlns:epub=\"http://www.idpf.org/2007/ops\" xml:lang=\"" ++ lang ++ "\" lang=\"" ++ lang ++ "\">
  <head>
    <meta charset=\"UTF-8\" />
    <title>" ++ title ++ "</title>
    <link rel=\"stylesheet\" type=\"text/css\" href=\"styles.css\" />
  </head>
  <body>
    <h1>" ++ title ++ "</h1>
    " ++ content ++ "
  </body>
</html>"

/-- The loop of `write_chapters` (lines 47-71), with the book title and
language threaded in; a `none` from any chapter propagates (panic aborts the
whole build). -/
def write_chapters_go (bookTitle lang : String) : List (List String) → Option (List (String × String))
  | [] => some []
  | c :: rest =>
    match chapterContent c with
    | none => none
    | some content =>
      match write_chapters_go bookTitle lang rest with
      | none => none
      | some tl => some ((chapterTitle c, chapterTemplate bookTitle lang content) :: tl)

/-- `fn write_chapters(&self) -> Vec<(&String, String)>` (lines 44-74). -/
def write_chapters (e : EPUB) : Option (List (String × String)) :=
  write_chapters_go e.info.title e.info.lang e.chapters

/-! ## Href / entry-name expressions, one per source location -/

/-- Line 79, `href` hole of the manifest item: `"{}.xhtml"` of the underscore
slug of the chapter title. -/
def manifestHref (c : List String) : String :=
  slugify (chapterTitle c) sepUnderscore ++ ".xhtml"

/-- Line 94, `src` of a toc.xhtml list item. -/
def tocXhtmlHref (c : List String) : String :=
  slugify (chapterTitle c) sepUnderscore ++ ".xhtml"

/-- Line 115, `src` of a toc.ncx navPoint. -/
def tocNcxSrc (c : List String) : String :=
  slugify (chapterTitle c) sepUnderscore ++ ".xhtml"

/-- Line 257, the archive entry name `"OEBPS/{}.xhtml"` for a chapter
title. -/
def archiveChapterEntryName (title : String) : String :=
  "OEBPS/" ++ slugify title sepUnderscore ++ ".xhtml"

/-! ## Manifest builder (`manifest`, lib.rs lines 76-87) -/

structure ManifestItem where
  id : String
  href : String
  mediaType : String
  navProperty : Bool
deriving DecidableEq

/-- Rendering of one `<item .. />` line; with `navProperty` set it carries
`properties="nav"` exactly as the fixed toc line of the template does. -/
def renderItem (it : ManifestItem) : String :=
  "<item id=\"" ++ it.id ++ "\" href=\"" ++ it.href ++ "\" media-type=\"" ++ it.mediaType ++ "\"" ++
    (if it.navProperty then " properties=\"nav\"" else "") ++ " />"

/-- Line 79: the per-chapter manifest item string. -/
def manifestChapterItemStr (c : List String) : String :=
  "<item id=\"" ++ slugify (chapterTitle c) sepDefault ++ "\" href=\"" ++ manifestHref c ++ "\" media-type=\"application/xhtml+xml\" />"

/-- The fixed head of the manifest template (lines 83-86), up to and including
the newline before the `{}` hole. -/
def manifestHeaderStr : String :=
  "<item id=\"ncx\" href=\"toc.ncx\" media-type=\"application/x-dtbncx+xml\" />
<item id=\"toc\" href=\"toc.xhtml\" media-type=\"application/xhtml+xml\" properties=\"nav\" />
<item id=\"css\" href=\"styles.css\" media-type=\"text/css\" />
"

/-- `fn manifest(&self) -> String` (lines 76-87); `none` = the `unwrap()` on
line 81 panics (empty chapter list). -/
def manifest (e : EPUB) : Option String :=
  (reduceConcatNl (e.chapters.map manifestChapterItemStr)).map
    (fun xhtml_targets => manifestHeaderStr ++ xhtml_targets)

/-- Claim-side structural reading of the manifest: the three fixed items
followed by one item per chapter, in chapter order. -/
def manifestItems (e : EPUB) : List ManifestItem :=
  { id := "ncx", href := "toc.ncx", mediaType := "application/x-dtbncx+xml", navProperty := false } ::
  { id := "toc", href := "toc.xhtml", mediaType := "application/xhtml+xml", navProperty := true } ::
  { id := "css", href := "styles.css", mediaType := "text/css", navProperty := false } ::
  e.chapters.map (fun c =>
    { id := slugify (chapterTitle c) sepDefault
    , href := manifestHref c
    , mediaType := "application/xhtml+xml"
    , navProperty := false })

/-! ## Navigation builders (`toc_xhtml` lines 89-106, `toc_ncx` lines 108-130) -/

/-- One `<li>` of the navigation document (lines 96-98). -/
def tocXhtmlItem (c : List String) : String :=
  "<li class=\"table-of-content\">
      <a href=\"" ++ tocXhtmlHref c ++ "\">" ++ chapterTitle c ++ "</a>
    </li>"

/-- `fn toc_xhtml(&self) -> String` (lines 89-106); `none` = the `unwrap()` on
line 105 panics. -/
def toc_xhtml (e : EPUB) : Option String :=
  reduceConcatNl (e.chapters.map tocXhtmlItem)

structure NavPoint where
  id : String
  playOrder : Nat
  label : String
  src : String
deriving DecidableEq

/-- The navPoint template (lines 117-122). -/
def renderNavPoint (p : NavPoint) : String :=
  "<navPoint id=\"" ++ p.id ++ "\" playOrder=\"" ++ toString p.playOrder ++ "\" class=\"chapter\">
  <navLabel>
    <text>" ++ p.label ++ "</text>
  </navLabel>
  <content src=\"" ++ p.src ++ "\"/>
</navPoint>"

/-- Lines 111-115: the fields computed for the chapter at zero-based position
`index`: `next = index + 1`, `content_id = "content_{index}_item_{index}"`,
label `"{next}. {title}"`, `src` the underscore slug plus `.xhtml`. -/
def ncxChapterPoint (index : Nat) (c : List String) : NavPoint :=
  { id := "content_" ++ toString index ++ "_item_" ++ toString index
  , playOrder := index + 1
  , label := toString (index + 1) ++ ". " ++ chapterTitle c
  , src := tocNcxSrc c }

def ncxChapterPoints (e : EPUB) : List NavPoint :=
  e.chapters.enum.map (fun p => ncxChapterPoint p.1 p.2)

/-- `fn toc_ncx(&self) -> String` (lines 108-130); `none` = the `unwrap()` on
line 129 panics. -/
def toc_ncx (e : EPUB) : Option String :=
  reduceConcatNl ((ncxChapterPoints e).map renderNavPoint)

/-- The fixed, always-first toc navigation point written literally inside the
`navMap` of the toc.ncx template (lines 221-226): id `toc`, play order `0`,
label the book's toc title, linking the navigation document. -/
def tocNavPoint (e : EPUB) : NavPoint :=
  { id := "toc", playOrder := 0, label := e.info.toc_title, src := "toc.xhtml" }

/-- The full `navMap` of the navigation-control document: the fixed toc point
followed by the per-chapter points. -/
def navMap (e : EPUB) : List NavPoint :=
  tocNavPoint e :: ncxChapterPoints e

/-! ## Archive assembler (`archive`, lib.rs lines 132-273)

The zip writer collaborator (spec §6) is modelled as a step-indexed sequence
of entries.  Each `start_file`/`write_all` pair and each `add_directory` call
is one step; a failure oracle `fail : Nat → Bool` says whether the step's
fallible call returns `Err` (propagated by `?`).  The in-memory
`Cursor<Vec<u8>>` writer of the source never fails: it is the oracle
`noFail`. -/

inductive CompressionMethod where
  | Stored
  | Deflated
deriving DecidableEq

structure FileOptions where
  compression : CompressionMethod
  unixPermissions : Option Nat
deriving DecidableEq

/-- Lines 137-139: `FileOptions::default().compression_method(Stored).unix_permissions(0o755)`. -/
def stored : FileOptions :=
  { compression := CompressionMethod.Stored, unixPermissions := some 0o755 }

/-- `FileOptions::default()` of the zip collaborator: Deflated compression. -/
def zipDefault : FileOptions :=
  { compression := CompressionMethod.Deflated, unixPermissions := none }

inductive ZipEntry where
  | file (name : String) (opts : FileOptions) (data : String)
  | dir (name : String) (opts : FileOptions)
deriving DecidableEq

/-- How a build can fail: `ioFault` is an `Err` from the zip collaborator
propagated by `?`; `abortFault` is a panic (an `unwrap()` of `None`/`Err`). -/
inductive BuildFault where
  | ioFault
  | abortFault
deriving DecidableEq

/-- Outcome of `archive()` as observed by the caller: `ok` with the finished
bytes (modelled as the entry list), `failed` (an `Err` return carrying no
bytes), or `aborted` (a panic: no return value at all). -/
inductive BuildResult where
  | ok (entries : List ZipEntry)
  | failed
  | aborted
deriving DecidableEq

/-- Zip-writer state: next step index and the entries written so far. -/
abbrev ZipSt := Nat × List ZipEntry

/-- One `start_file`+`write_all` (or `add_directory`) step: fails if the
oracle says so, otherwise appends the entry. -/
def put (fail : Nat → Bool) (en : ZipEntry) (st : ZipSt) : Except BuildFault ZipSt :=
  if fail st.1 then Except.error BuildFault.ioFault
  else Except.ok (st.1 + 1, st.2 ++ [en])

/-- `unwrap()` on an `Option` whose `None` aborts the build. -/
def unwrapO {α : Type} (o : Option α) : Except BuildFault α :=
  match o with
  | none => Except.error BuildFault.abortFault
  | some s => Except.ok s

/-- The loop over the rendered chapters (lines 256-259): one stored entry per
chapter, named `OEBPS/{underscore slug}.xhtml`, holding the rendered
document. -/
def putChapters (fail : Nat → Bool) : List (String × String) → ZipSt → Except BuildFault ZipSt
  | [], st => Except.ok st
  | (title, raw) :: rest, st =>
    match put fail (ZipEntry.file (archiveChapterEntryName title) stored raw) st with
    | Except.error er => Except.error er
    | Except.ok st2 => putChapters fail rest st2

/-- `zip.finish().unwrap()` (line 272): a failing finish is unwrapped, i.e.
panics; success yields the accumulated bytes. -/
def finishZip (fail : Nat → Bool) (st : ZipSt) : Except BuildFault (List ZipEntry) :=
  if fail st.1 then Except.error BuildFault.abortFault else Except.ok st.2

/-- `META_INF/container.xml` payload (lines 151-156). -/
def containerXml : String :=
  "<?xml version=\"1.0\" encoding=\"UTF-8\" standalone=\"no\"?>
<container version=\"1.0\" xmlns=\"urn:oasis:names:tc:opendocument:xmlns:container\">
  <rootfiles>
    <rootfile full-path=\"OEBPS/content.opf\" media-type=\"application/oebps-package+xml\"/>
  </rootfiles>
</container>"

/-- The `content.opf` template (lines 164-198), with the generated identifier,
the wall-clock date and the manifest markup as parameters. -/
def contentOpf (e : EPUB) (uuid date manifestStr : String) : String :=
  "<?xml version=\"1.0\" encoding=\"UTF-8\"?>
  <package" ++ " " ++ "
    xmlns=\"http://www.idpf.org/2007/opf\"
    version=\"3.0\"
    unique-identifier=\"BookId\"
    xmlns:dc=\"http://purl.org/dc/elements/1.1/\"
    xmlns:dcterms=\"http://purl.org/dc/terms/\"
    xml:lang=\"" ++ e.info.lang ++ "\"
    xmlns:media=\"http://www.idpf.org/epub/vocab/overlays/#\"
    prefix=\"ibooks: http://vocabulary.itunes.apple.com/rdf/ibooks/vocabulary-extensions-1.0/\">

  <metadata xmlns:dc=\"http://purl.org/dc/elements/1.1/\" xmlns:opf=\"http://www.idpf.org/2007/opf\">
    <dc:identifier id=\"BookId\">" ++ uuid ++ "</dc:identifier>
    <meta refines=\"#BookId\" property=\"identifier-type\" scheme=\"onix:codelist5\">22</meta>
    <meta property=\"dcterms:identifier\" id=\"meta-identifier\">BookId</meta>
    <dc:title>" ++ e.info.title ++ "</dc:title>
    <meta property=\"dcterms:title\" id=\"meta-title\">" ++ e.info.title ++ "</meta>
    <dc:language>" ++ e.info.lang ++ "</dc:language>
    <meta property=\"dcterms:language\" id=\"meta-language\">" ++ e.info.lang ++ "</meta>
    <meta property=\"dcterms:modified\">" ++ date ++ "</meta>
    <dc:creator id=\"creator\">" ++ e.info.author ++ "</dc:creator>
    <meta refines=\"#creator\" property=\"file-as\">" ++ e.info.author ++ "</meta>
    <meta property=\"dcterms:publisher\">" ++ e.info.publisher ++ "</meta>
    <dc:publisher>" ++ e.info.publisher ++ "</dc:publisher>
    <meta property=\"dcterms:date\">" ++ date ++ "</meta>
    <dc:date>" ++ date ++ "</dc:date>
    <meta property=\"dcterms:rights\">All rights reserved</meta>
    <dc:rights>Copyright &#x00A9; 2023 by " ++ e.info.publisher ++ "</dc:rights>
    <meta name=\"generator\" content=\"epub-gen-rs\" />
    <meta property=\"ibooks:specified-fonts\">false</meta>
  </metadata>
  <manifest>
    " ++ manifestStr ++ "
  </manifest>
</package>"

/-- The `toc.ncx` document template (lines 204-229); the `toc` parameter is the
joined per-chapter navPoint markup from `toc_ncx`.  Note the literal toc
navigation point with id `toc` and play order `0` preceding the hole. -/
def tocNcxDoc (e : EPUB) (uuid tocStr : String) : String :=
  "
    <?xml version=\"1.0\" encoding=\"UTF-8\"?>
<ncx xmlns=\"http://www.daisy.org/z3986/2005/ncx/\" version=\"2005-1\">
  <head>
    <meta name=\"dtb:uid\" content=\"" ++ uuid ++ "\" />
    <meta name=\"dtb:generator\" content=\"epub-gen-rs\"/>
    <meta name=\"dtb:depth\" content=\"1\"/>
    <meta name=\"dtb:totalPageCount\" content=\"0\"/>
    <meta name=\"dtb:maxPageNumber\" content=\"0\"/>
  </head>
  <docTitle>
    <text>" ++ e.info.title ++ "</text>
  </docTitle>
  <docAuthor>
    <text>" ++ e.info.author ++ "</text>
  </docAuthor>
  <navMap>
    <navPoint id=\"toc\" playOrder=\"0\" class=\"chapter\">
      <navLabel>
        <text>" ++ e.info.toc_title ++ "</text>
      </navLabel>
      <content src=\"toc.xhtml\"/>
    </navPoint>
    " ++ tocStr ++ "
  </navMap>
</ncx>"

/-- The `toc.xhtml` document template (lines 235-251); the `toc` parameter is
the joined list-item markup from `toc_xhtml`. -/
def tocXhtmlDoc (e : EPUB) (tocStr : String) : String :=
  "<?xml version=\"1.0\" encoding=\"UTF-8\"?>
<!DOCTYPE html>
<html xmlns=\"http://www.w3.org/1999/xhtml\" xmlns:epub=\"http://www.idpf.org/2007/ops\" xml:lang=\"" ++ e.info.lang ++ "\" lang=\"" ++ e.info.lang ++ "\">
<head>
    <title>" ++ e.info.title ++ "</title>
    <meta charset=\"UTF-8\" />
    <link rel=\"stylesheet\" type=\"text/css\" href=\"styles.css\" />
</head>
<body>
  <h1 class=\"h1\">Table of Content</h1>
  <nav id=\"toc\" epub:type=\"toc\">
    <ol>
      " ++ tocStr ++ "
    </ol>
  </nav>
</body>
</html>"

/-- Lines 262-270: the styles.css payload — the stylesheet text when present,
the empty byte sequence otherwise. -/
def cssData (e : EPUB) : String :=
  match e.info.css with
  | some css => css
  | none => ""

/-- The body of `archive()` (lines 132-273) as a chain over the zip-writer
model.  Operation order follows the source: `write_chapters` first (line 142),
then mimetype, META_INF/, container.xml, OEBPS/, content.opf (whose template
evaluates `manifest`), toc.ncx (evaluating `toc_ncx`), toc.xhtml (evaluating
`toc_xhtml`), the per-chapter entries, styles.css, and `finish().unwrap()`.
Each `start_file`+`write_all` pair is collapsed into one `put` step. -/
def archiveSteps (fail : Nat → Bool) (e : EPUB) (uuid date : String) : Except BuildFault (List ZipEntry) := do
  let chs ← unwrapO (write_chapters e)
  let st ← put fail (ZipEntry.file "mimetype" stored "application/epub+zip") (0, [])
  let st ← put fail (ZipEntry.dir "META_INF/" stored) st
  let st ← put fail (ZipEntry.file "META_INF/container.xml" stored containerXml) st
  let st ← put fail (ZipEntry.dir "OEBPS/" zipDefault) st
  let m ← unwrapO (manifest e)
  let st ← put fail (ZipEntry.file "OEBPS/content.opf" zipDefault (contentOpf e uuid date m)) st
  let tn ← unwrapO (toc_ncx e)
  let st ← put fail (ZipEntry.file "OEBPS/toc.ncx" zipDefault (tocNcxDoc e uuid tn)) st
  let tx ← unwrapO (toc_xhtml e)
  let st ← put fail (ZipEntry.file "OEBPS/toc.xhtml" zipDefault (tocXhtmlDoc e tx)) st
  let st ← putChapters fail chs st
  let st ← put fail (ZipEntry.file "OEBPS/styles.css" zipDefault (cssData e)) st
  finishZip fail st

/-- `pub fn archive(&self) -> Result<Vec<u8>, _>`: the caller-visible outcome.
The random identifier (`Uuid::new_v4()`) and wall clock (`Local::now()`) are
injected as parameters. -/
def archive (fail : Nat → Bool) (e : EPUB) (uuid date : String) : BuildResult :=
  match archiveSteps fail e uuid date with
  | Except.ok l => BuildResult.ok l
  | Except.error BuildFault.ioFault => BuildResult.failed
  | Except.error BuildFault.abortFault => BuildResult.aborted

/-- The in-memory `Cursor<Vec<u8>>` writer of the source: no zip operation
ever fails. -/
def noFail : Nat → Bool := fun _ => false

/-- The archive entries a chapter list contributes (entry per rendered
chapter, in order). -/
def chapterEntryList (chs : List (String × String)) : List ZipEntry :=
  chs.map (fun p => ZipEntry.file (archiveChapterEntryName p.1) stored p.2)

/-- The complete, finalized entry sequence of a successful build. -/
def fullEntries (e : EPUB) (uuid date : String) : List ZipEntry :=
  [ ZipEntry.file "mimetype" stored "application/epub+zip"
  , ZipEntry.dir "META_INF/" stored
  , ZipEntry.file "META_INF/container.xml" stored containerXml
  , ZipEntry.dir "OEBPS/" zipDefault
  , ZipEntry.file "OEBPS/content.opf" zipDefault (contentOpf e uuid date ((manifest e).getD ""))
  , ZipEntry.file "OEBPS/toc.ncx" zipDefault (tocNcxDoc e uuid ((toc_ncx e).getD ""))
  , ZipEntry.file "OEBPS/toc.xhtml" zipDefault (tocXhtmlDoc e ((toc_xhtml e).getD ""))
  ] ++ chapterEntryList ((write_chapters e).getD [])
  ++ [ ZipEntry.file "OEBPS/styles.css" zipDefault (cssData e) ]

/-- The name of a file entry (`none` for directory entries). -/
def entryFileName : ZipEntry → Option String
  | ZipEntry.file n _ _ => some n
  | ZipEntry.dir _ _ => none

/-! ## Auxiliary notions used by statements -/

/-- Does `hay` start with `needle`? (over character lists) -/
def listStartsWith : List Char → List Char → Bool
  | [], _ => true
  | _ :: _, [] => false
  | n :: ns, h :: hs => n == h && listStartsWith ns hs

def listHasSub (needle : List Char) : List Char → Bool
  | [] => listStartsWith needle []
  | h :: hs => listStartsWith needle (h :: hs) || listHasSub needle hs

/-- Substring occurrence test on strings. -/
def hasSub (hay needle : String) : Bool := listHasSub needle.data hay.data

/-- The shape the reduce-join of lib.rs line 53 actually produces after the
first element: every further element is APPENDED TOGETHER WITH a trailing
newline. -/
def tailTerminated : List String → String
  | [] => ""
  | x :: xs => x ++ "\n" ++ tailTerminated xs

/-- Modelled from the spec: §4.2 — paragraphs "joined with a single newline
separator".  Claim-side definition, used only to compare the source's join
against the spec's words. -/
def newlineJoinedBody (ps : List String) : String :=
  String.intercalate "\n" (ps.map wrapP)

/-- The book metadata of the repository's own test (lib.rs lines 290-300). -/
def testInfo : Info :=
  { title := "test", description := "test", publisher := "test", author := "test"
  , toc_title := "test", lang := "en", fonts := ["en"], css := none, version := 3 }

/-- The spec §8 scenario book: `chapters = [["Title", "para one.", "para two."]]`. -/
def c4Epub : EPUB :=
  { info := testInfo, chapters := [["Title", "para one.", "para two."]] }

/-- A book with a single title-only chapter (empty paragraph list). -/
def c5Epub : EPUB := { info := testInfo, chapters := [["Intro"]] }

/-- A small concrete book used to instantiate hypotheses in witnesses. -/
def demoInfo : Info :=
  { title := "t", description := "d", publisher := "p", author := "a"
  , toc_title := "c", lang := "en", fonts := [], css := none, version := 3 }

def demoE : EPUB := { info := demoInfo, chapters := [["A", "b"]] }

/-- A book with an empty chapter list. -/
def emptyE : EPUB := { info := demoInfo, chapters := [] }

set_option maxRecDepth 16384

/-! ## Helper lemmas -/

theorem foldl_concatNl (xs : List String) (a : String) :
    xs.foldl (fun cur nxt => cur ++ nxt ++ "\n") a = a ++ tailTerminated xs := by
  induction xs generalizing a with
  | nil => simp [tailTerminated, String.append_empty]
  | cons x xs ih => rw [List.foldl_cons, ih]; simp [tailTerminated, String.append_assoc]

theorem enum_map_idx {α β : Type} (l : List α) (g : Nat → β) :
    l.enum.map (fun p => g p.1) = (List.range l.length).map g := by
  have h := congrArg (List.map g) (List.enum_map_fst l)
  rw [List.map_map] at h
  exact h

theorem enum_map_val {α β : Type} (l : List α) (f : α → β) :
    l.enum.map (fun p => f p.2) = l.map f := by
  have h := congrArg (List.map f) (List.enum_map_snd l)
  rw [List.map_map] at h
  exact h

theorem bind_ok {α β : Type} {x : Except BuildFault α} {f : α → Except BuildFault β} {b : β}
    (h : x >>= f = Except.ok b) : ∃ a, x = Except.ok a ∧ f a = Except.ok b := by
  cases x with
  | error er => simp [Bind.bind, Except.bind] at h
  | ok a => exact ⟨a, rfl, by simpa [Bind.bind, Except.bind] using h⟩

theorem put_ok {fail : Nat → Bool} {en : ZipEntry} {st st' : ZipSt}
    (h : put fail en st = Except.ok st') : st' = (st.1 + 1, st.2 ++ [en]) := by
  unfold put at h
  split at h
  · exact absurd h (by simp)
  · injection h with h; exact h.symm

theorem putChapters_ok {fail : Nat → Bool} : ∀ {chs : List (String × String)} {st st' : ZipSt},
    putChapters fail chs st = Except.ok st' → st'.2 = st.2 ++ chapterEntryList chs := by
  intro chs
  induction chs with
  | nil => intro st st' h; injection h with h; subst h; simp [chapterEntryList]
  | cons c rest ih =>
    intro st st' h
    unfold putChapters at h
    rcases hp : put fail (ZipEntry.file (archiveChapterEntryName c.1) stored c.2) st with er | st2
    · rw [hp] at h; simp at h
    · rw [hp] at h
      have h2 := ih h
      rw [put_ok hp] at h2
      simp [h2, chapterEntryList, List.append_assoc]

theorem unwrapO_ok {α : Type} {o : Option α} {s : α}
    (h : unwrapO o = Except.ok s) : o = some s := by
  cases o with
  | none => simp [unwrapO] at h
  | some v => simp [unwrapO] at h; rw [h]

theorem finishZip_ok {fail : Nat → Bool} {st : ZipSt} {l : List ZipEntry}
    (h : finishZip fail st = Except.ok l) : l = st.2 := by
  unfold finishZip at h
  split at h
  · exact absurd h (by simp)
  · injection h with h; exact h.symm

/-- Success of the assembler pins down the entry list completely: the only
path of `archiveSteps` ending in `Except.ok` runs every step. -/
theorem archive_ok_spec (fail : Nat → Bool) (e : EPUB) (uuid date : String) (l : List ZipEntry)
    (h : archive fail e uuid date = BuildResult.ok l) :
    l = fullEntries e uuid date ∧ ∃ chs, write_chapters e = some chs := by
  unfold archive at h
  rcases hs : archiveSteps fail e uuid date with f | l'
  · rw [hs] at h; cases f <;> simp at h
  · rw [hs] at h
    injection h with h
    subst h
    unfold archiveSteps at hs
    obtain ⟨chs, hchs, hs⟩ := bind_ok hs
    obtain ⟨st1, hp1, hs⟩ := bind_ok hs
    obtain ⟨st2, hp2, hs⟩ := bind_ok hs
    obtain ⟨st3, hp3, hs⟩ := bind_ok hs
    obtain ⟨st4, hp4, hs⟩ := bind_ok hs
    obtain ⟨m, hm, hs⟩ := bind_ok hs
    obtain ⟨st5, hp5, hs⟩ := bind_ok hs
    obtain ⟨tn, htn, hs⟩ := bind_ok hs
    obtain ⟨st6, hp6, hs⟩ := bind_ok hs
    obtain ⟨tx, htx, hs⟩ := bind_ok hs
    obtain ⟨st7, hp7, hs⟩ := bind_ok hs
    obtain ⟨st8, hpc, hs⟩ := bind_ok hs
    obtain ⟨st9, hp9, hs⟩ := bind_ok hs
    have hfin := finishZip_ok hs
    have h1 := put_ok hp1
    have h2 := put_ok hp2
    have h3 := put_ok hp3
    have h4 := put_ok hp4
    have h5 := put_ok hp5
    have h6 := put_ok hp6
    have h7 := put_ok hp7
    have h8 := putChapters_ok hpc
    have h9 := put_ok hp9
    have hwc := unwrapO_ok hchs
    have hmm := unwrapO_ok hm
    have htn2 := unwrapO_ok htn
    have htx2 := unwrapO_ok htx
    subst h1 h2 h3 h4 h5 h6 h7 h9
    refine ⟨?_, chs, hwc⟩
    rw [hfin]
    simp only [fullEntries, hwc, hmm, htn2, htx2, Option.getD_some]
    simp [h8, List.append_assoc]

theorem write_chapters_go_fst {bt lg : String} : ∀ {cs : List (List String)} {chs : List (String × String)},
    write_chapters_go bt lg cs = some chs → chs.map Prod.fst = cs.map chapterTitle := by
  intro cs
  induction cs with
  | nil => intro chs h; injection h with h; subst h; simp
  | cons c rest ih =>
    intro chs h
    unfold write_chapters_go at h
    rcases hc : chapterContent c with _ | content
    · rw [hc] at h; simp at h
    · rw [hc] at h
      rcases hr : write_chapters_go bt lg rest with _ | tl
      · rw [hr] at h; simp at h
      · rw [hr] at h
        injection h with h
        subst h
        simp [ih hr]

theorem renderItem_chapter (c : List String) :
    renderItem { id := slugify (chapterTitle c) sepDefault, href := manifestHref c
               , mediaType := "application/xhtml+xml", navProperty := false }
      = manifestChapterItemStr c := by
  simp [manifestChapterItemStr, renderItem, String.append_assoc, String.append_empty]

theorem chapterEntryList_names : ∀ (chs : List (String × String)),
    (chapterEntryList chs).filterMap entryFileName = chs.map (fun p => archiveChapterEntryName p.1)
  | [] => rfl
  | c :: rest => by
    simp only [chapterEntryList, List.map_cons, List.filterMap_cons, entryFileName]
    exact congrArg _ (chapterEntryList_names rest)

theorem manifestHeaderStr_render :
    manifestHeaderStr
      = renderItem { id := "ncx", href := "toc.ncx", mediaType := "application/x-dtbncx+xml", navProperty := false }
        ++ "\n" ++ renderItem { id := "toc", href := "toc.xhtml", mediaType := "application/xhtml+xml", navProperty := true }
        ++ "\n" ++ renderItem { id := "css", href := "styles.css", mediaType := "text/css", navProperty := false }
        ++ "\n" := by decide

/-! ## Claim theorems -/

/-- C1: for every chapter, the underscore-separator slug of its title plus
".xhtml" is one and the same string at all four places that reference the
chapter: the manifest item's href (lib.rs line 79), the navigation document's
link target (line 94), the navigation-control point's content src (line 115),
and — below the fixed OEBPS/ directory — the archive entry name generated for
the chapter's content document (line 257). -/
theorem c1_href_consistency (c : List String) (i : Nat) :
    manifestHref c = tocXhtmlHref c
    ∧ tocNcxSrc c = tocXhtmlHref c
    ∧ (ncxChapterPoint i c).src = manifestHref c
    ∧ manifestHref c = slugify (chapterTitle c) sepUnderscore ++ ".xhtml"
    ∧ archiveChapterEntryName (chapterTitle c) = "OEBPS/" ++ manifestHref c :=
  ⟨rfl, rfl, rfl, rfl, rfl⟩

/-- C2: every successful build's first archive entry is the file `mimetype`,
written with the Stored (no compression) options of lib.rs lines 137-139, with
payload exactly "application/epub+zip". -/
theorem c2_mimetype_first_entry (fail : Nat → Bool) (e : EPUB) (uuid date : String)
    (l : List ZipEntry) (h : archive fail e uuid date = BuildResult.ok l) :
    l.head? = some (ZipEntry.file "mimetype" stored "application/epub+zip")
    ∧ stored.compression = CompressionMethod.Stored := by
  obtain ⟨hl, -⟩ := archive_ok_spec fail e uuid date l h
  subst hl
  exact ⟨rfl, rfl⟩

theorem c2_mimetype_first_entry_witness :
    (fullEntries demoE "u" "dt").head? = some (ZipEntry.file "mimetype" stored "application/epub+zip")
    ∧ stored.compression = CompressionMethod.Stored :=
  c2_mimetype_first_entry noFail demoE "u" "dt" (fullEntries demoE "u" "dt") rfl

/-- C9: a successful `archive()` determines the entry list completely — it is
exactly the full, finalized sequence of entries, so no partially written
archive is ever returned (the `failed` and `aborted` results carry no bytes
at all). -/
theorem c9_no_partial_archive (fail : Nat → Bool) (e : EPUB) (uuid date : String)
    (l : List ZipEntry) (h : archive fail e uuid date = BuildResult.ok l) :
    l = fullEntries e uuid date :=
  (archive_ok_spec fail e uuid date l h).1

theorem c9_no_partial_archive_witness :
    fullEntries demoE "u" "dt" = fullEntries demoE "u" "dt" :=
  c9_no_partial_archive noFail demoE "u" "dt" (fullEntries demoE "u" "dt") rfl

/-- C8: the file entries of every successful build appear in the fixed order
mimetype, META_INF/container.xml, OEBPS/content.opf, OEBPS/toc.ncx,
OEBPS/toc.xhtml, one OEBPS/(underscore slug).xhtml per chapter in chapter
order, then OEBPS/styles.css; the styles.css entry is always last and written
unconditionally, holding the stylesheet text when present and the empty byte
sequence otherwise. -/
theorem c8_entry_order (fail : Nat → Bool) (e : EPUB) (uuid date : String)
    (l : List ZipEntry) (h : archive fail e uuid date = BuildResult.ok l) :
    l.filterMap entryFileName
      = ["mimetype", "META_INF/container.xml", "OEBPS/content.opf", "OEBPS/toc.ncx", "OEBPS/toc.xhtml"]
        ++ e.chapters.map (fun c => archiveChapterEntryName (chapterTitle c))
        ++ ["OEBPS/styles.css"]
    ∧ l.getLast? = some (ZipEntry.file "OEBPS/styles.css" zipDefault (cssData e))
    ∧ cssData e = (match e.info.css with | some css => css | none => "") := by
  obtain ⟨hl, chs, hwc⟩ := archive_ok_spec fail e uuid date l h
  subst hl
  refine ⟨?_, ?_, rfl⟩
  · have hfst : chs.map Prod.fst = e.chapters.map chapterTitle := by
      unfold write_chapters at hwc
      exact write_chapters_go_fst hwc
    have hnames : chs.map (fun p => archiveChapterEntryName p.1)
        = e.chapters.map (fun c => archiveChapterEntryName (chapterTitle c)) := by
      have hmm : chs.map (fun p => archiveChapterEntryName p.1)
          = (chs.map Prod.fst).map archiveChapterEntryName :=
        (List.map_map archiveChapterEntryName Prod.fst chs).symm
      rw [hmm, hfst]
      exact List.map_map archiveChapterEntryName chapterTitle e.chapters
    simp only [fullEntries, hwc, Option.getD_some, List.filterMap_append,
      chapterEntryList_names, hnames]
    simp [List.filterMap_cons, entryFileName]
  · rw [show fullEntries e uuid date
        = ([ ZipEntry.file "mimetype" stored "application/epub+zip"
           , ZipEntry.dir "META_INF/" stored
           , ZipEntry.file "META_INF/container.xml" stored containerXml
           , ZipEntry.dir "OEBPS/" zipDefault
           , ZipEntry.file "OEBPS/content.opf" zipDefault (contentOpf e uuid date ((manifest e).getD ""))
           , ZipEntry.file "OEBPS/toc.ncx" zipDefault (tocNcxDoc e uuid ((toc_ncx e).getD ""))
           , ZipEntry.file "OEBPS/toc.xhtml" zipDefault (tocXhtmlDoc e ((toc_xhtml e).getD ""))
           ] ++ chapterEntryList ((write_chapters e).getD []))
          ++ [ZipEntry.file "OEBPS/styles.css" zipDefault (cssData e)]
      from by simp [fullEntries, List.append_assoc]]
    exact List.getLast?_concat _

theorem c8_entry_order_witness :
    (fullEntries demoE "u" "dt").filterMap entryFileName
      = ["mimetype", "META_INF/container.xml", "OEBPS/content.opf", "OEBPS/toc.ncx", "OEBPS/toc.xhtml"]
        ++ demoE.chapters.map (fun c => archiveChapterEntryName (chapterTitle c))
        ++ ["OEBPS/styles.css"]
    ∧ (fullEntries demoE "u" "dt").getLast? = some (ZipEntry.file "OEBPS/styles.css" zipDefault (cssData demoE))
    ∧ cssData demoE = (match demoE.info.css with | some css => css | none => "") :=
  c8_entry_order noFail demoE "u" "dt" (fullEntries demoE "u" "dt") rfl

/-- C3: for a non-empty chapter list of length N, the navMap of the
navigation-control document holds N+1 navigation points: the fixed toc point
(id "toc", play order 0, labelled with the book's toc title, targeting
toc.xhtml) followed by one point per chapter in chapter order, the chapter at
zero-based position i carrying play order i+1, the id "content_i_item_i", the
label "(i+1). title", and the chapter's href as content src; the play orders
are exactly the gapless sequence 0, 1, ..., N. -/
theorem c3_navmap_structure (e : EPUB) (hne : e.chapters ≠ []) :
    (navMap e).length = e.chapters.length + 1
    ∧ (navMap e).map NavPoint.playOrder = List.range (e.chapters.length + 1)
    ∧ (navMap e).head? = some { id := "toc", playOrder := 0, label := e.info.toc_title, src := "toc.xhtml" }
    ∧ (navMap e).map NavPoint.id
        = "toc" :: (List.range e.chapters.length).map (fun i => "content_" ++ toString i ++ "_item_" ++ toString i)
    ∧ (navMap e).map NavPoint.label
        = e.info.toc_title :: e.chapters.enum.map (fun p => toString (p.1 + 1) ++ ". " ++ chapterTitle p.2)
    ∧ (navMap e).map NavPoint.src = "toc.xhtml" :: e.chapters.map tocNcxSrc := by
  refine ⟨?_, ?_, rfl, ?_, ?_, ?_⟩
  · simp [navMap, ncxChapterPoints, List.enum_length]
  · calc (navMap e).map NavPoint.playOrder
        = 0 :: e.chapters.enum.map (fun p => p.1 + 1) := by
          simp only [navMap, List.map_cons, ncxChapterPoints, List.map_map]; rfl
      _ = 0 :: (List.range e.chapters.length).map (fun i => i + 1) := by
          exact congrArg _ (enum_map_idx e.chapters (fun i => i + 1))
      _ = List.range (e.chapters.length + 1) := by rw [List.range_succ_eq_map]
  · calc (navMap e).map NavPoint.id
        = "toc" :: e.chapters.enum.map (fun p => "content_" ++ toString p.1 ++ "_item_" ++ toString p.1) := by
          simp only [navMap, List.map_cons, ncxChapterPoints, List.map_map]; rfl
      _ = "toc" :: (List.range e.chapters.length).map (fun i => "content_" ++ toString i ++ "_item_" ++ toString i) := by
          exact congrArg _ (enum_map_idx e.chapters (fun i => "content_" ++ toString i ++ "_item_" ++ toString i))
  · simp only [navMap, List.map_cons, ncxChapterPoints, List.map_map]; rfl
  · calc (navMap e).map NavPoint.src
        = "toc.xhtml" :: e.chapters.enum.map (fun p => tocNcxSrc p.2) := by
          simp only [navMap, List.map_cons, ncxChapterPoints, List.map_map]; rfl
      _ = "toc.xhtml" :: e.chapters.map tocNcxSrc := by
          exact congrArg _ (enum_map_val e.chapters tocNcxSrc)

theorem c3_navmap_structure_witness :
    (navMap demoE).length = demoE.chapters.length + 1
    ∧ (navMap demoE).map NavPoint.playOrder = List.range (demoE.chapters.length + 1)
    ∧ (navMap demoE).head? = some { id := "toc", playOrder := 0, label := demoE.info.toc_title, src := "toc.xhtml" }
    ∧ (navMap demoE).map NavPoint.id
        = "toc" :: (List.range demoE.chapters.length).map (fun i => "content_" ++ toString i ++ "_item_" ++ toString i)
    ∧ (navMap demoE).map NavPoint.label
        = demoE.info.toc_title :: demoE.chapters.enum.map (fun p => toString (p.1 + 1) ++ ". " ++ chapterTitle p.2)
    ∧ (navMap demoE).map NavPoint.src = "toc.xhtml" :: demoE.chapters.map tocNcxSrc :=
  c3_navmap_structure demoE (by decide)

/-- C7: for a non-empty chapter list, the manifest markup is, in this fixed
order, the ncx item, the navigation-document item carrying the nav property,
the stylesheet item, then one item per chapter in chapter order whose id is
the default-separator slug of the title and whose href is the underscore slug
plus ".xhtml", each with the fixed media types. -/
theorem c7_manifest_fixed_order (e : EPUB) (h : e.chapters ≠ []) :
    manifest e
      = some (renderItem { id := "ncx", href := "toc.ncx", mediaType := "application/x-dtbncx+xml", navProperty := false }
          ++ "\n" ++ renderItem { id := "toc", href := "toc.xhtml", mediaType := "application/xhtml+xml", navProperty := true }
          ++ "\n" ++ renderItem { id := "css", href := "styles.css", mediaType := "text/css", navProperty := false }
          ++ "\n" ++ (reduceConcatNl (((manifestItems e).drop 3).map renderItem)).getD "")
    ∧ (manifestItems e).map ManifestItem.id
        = "ncx" :: "toc" :: "css" :: e.chapters.map (fun c => slugify (chapterTitle c) sepDefault)
    ∧ (manifestItems e).map ManifestItem.href
        = "toc.ncx" :: "toc.xhtml" :: "styles.css" :: e.chapters.map manifestHref
    ∧ (manifestItems e).map ManifestItem.mediaType
        = "application/x-dtbncx+xml" :: "application/xhtml+xml" :: "text/css"
            :: e.chapters.map (fun _ => "application/xhtml+xml")
    ∧ (manifestItems e).map ManifestItem.navProperty
        = false :: true :: false :: e.chapters.map (fun _ => false) := by
  have hbody : ((manifestItems e).drop 3).map renderItem = e.chapters.map manifestChapterItemStr := by
    show ((e.chapters.map _).map renderItem) = _
    rw [List.map_map]
    congr 1
    funext c
    exact renderItem_chapter c
  refine ⟨?_, ?_, ?_, ?_, ?_⟩
  · obtain ⟨s, hred⟩ : ∃ s, reduceConcatNl (e.chapters.map manifestChapterItemStr) = some s := by
      rcases hcs : e.chapters with _ | ⟨c, rest⟩
      · exact absurd hcs h
      · exact ⟨_, rfl⟩
    rw [show manifest e = some (manifestHeaderStr ++ s) from by simp [manifest, hred]]
    rw [hbody, hred, Option.getD_some]
    rw [manifestHeaderStr_render]
  · simp only [manifestItems, List.map_cons, List.map_map]; rfl
  · simp only [manifestItems, List.map_cons, List.map_map]; rfl
  · simp only [manifestItems, List.map_cons, List.map_map]; rfl
  · simp only [manifestItems, List.map_cons, List.map_map]; rfl

theorem c7_manifest_fixed_order_witness :
    manifest demoE
      = some (renderItem { id := "ncx", href := "toc.ncx", mediaType := "application/x-dtbncx+xml", navProperty := false }
          ++ "\n" ++ renderItem { id := "toc", href := "toc.xhtml", mediaType := "application/xhtml+xml", navProperty := true }
          ++ "\n" ++ renderItem { id := "css", href := "styles.css", mediaType := "text/css", navProperty := false }
          ++ "\n" ++ (reduceConcatNl (((manifestItems demoE).drop 3).map renderItem)).getD "")
    ∧ (manifestItems demoE).map ManifestItem.id
        = "ncx" :: "toc" :: "css" :: demoE.chapters.map (fun c => slugify (chapterTitle c) sepDefault)
    ∧ (manifestItems demoE).map ManifestItem.href
        = "toc.ncx" :: "toc.xhtml" :: "styles.css" :: demoE.chapters.map manifestHref
    ∧ (manifestItems demoE).map ManifestItem.mediaType
        = "application/x-dtbncx+xml" :: "application/xhtml+xml" :: "text/css"
            :: demoE.chapters.map (fun _ => "application/xhtml+xml")
    ∧ (manifestItems demoE).map ManifestItem.navProperty
        = false :: true :: false :: demoE.chapters.map (fun _ => false) :=
  c7_manifest_fixed_order demoE (by decide)

/-- C10: with an empty chapter list the manifest builder and both navigation
builders hit `reduce` of an empty iterator and `unwrap` the absent result, so
the build panics: on the in-memory (never-failing) zip writer, `archive()`
aborts instead of returning an Ok or Err value — every build that returns at
all requires at least one chapter. -/
theorem c10_empty_chapters_abort (e : EPUB) (uuid date : String) (h : e.chapters = []) :
    manifest e = none ∧ toc_xhtml e = none ∧ toc_ncx e = none
    ∧ archive noFail e uuid date = BuildResult.aborted := by
  have hm : manifest e = none := by simp [manifest, h, reduceConcatNl]
  have hwc : write_chapters e = some [] := by simp [write_chapters, h, write_chapters_go]
  refine ⟨hm, by simp [toc_xhtml, h, reduceConcatNl], by simp [toc_ncx, ncxChapterPoints, h, reduceConcatNl], ?_⟩
  simp [archive, archiveSteps, hwc, hm, unwrapO, put, noFail, Bind.bind, Except.bind]

theorem c10_empty_chapters_abort_witness :
    manifest emptyE = none ∧ toc_xhtml emptyE = none ∧ toc_ncx emptyE = none
    ∧ archive noFail emptyE "u" "dt" = BuildResult.aborted :=
  c10_empty_chapters_abort emptyE "u" "dt" rfl

/-- C4 (code bug evidence): on the spec §8 scenario — book title "test",
language "en", single chapter ["Title", "para one.", "para two."] — the
rendered chapter document interpolates the BOOK title into the `h1` element
(lib.rs line 68 binds the template's title hole to `self.info.title`), so the
document contains `<h1>test</h1>` and does not contain `<h1>Title</h1>`; the
two paragraphs do appear wrapped, in input order, and the manifest does list
exactly one chapter item after its three fixed items. -/
theorem c4_chapter_h1_uses_book_title :
    write_chapters c4Epub
      = some [("Title", chapterTemplate "test" "en" "<p>para one.</p><p>para two.</p>\n")]
    ∧ hasSub (chapterTemplate "test" "en" "<p>para one.</p><p>para two.</p>\n") "<h1>test</h1>" = true
    ∧ hasSub (chapterTemplate "test" "en" "<p>para one.</p><p>para two.</p>\n") "<h1>Title</h1>" = false
    ∧ hasSub (chapterTemplate "test" "en" "<p>para one.</p><p>para two.</p>\n") "<p>para one.</p><p>para two.</p>" = true
    ∧ manifest c4Epub
      = some (manifestHeaderStr ++ "<item id=\"title\" href=\"title.xhtml\" media-type=\"application/xhtml+xml\" />") :=
  ⟨by decide, by decide, by decide, by decide, by decide⟩

/-- C5 (code bug evidence): a chapter consisting of exactly one element (a
title, empty paragraph list) makes `write_chapters` call
`reduce(..).unwrap()` on an empty paragraph iterator (lib.rs line 54): the
render does not succeed — it panics, and the whole build aborts instead of
producing a title-only document. -/
theorem c5_title_only_chapter_aborts :
    chapterContent ["Intro"] = none
    ∧ write_chapters c5Epub = none
    ∧ archive noFail c5Epub "u" "dt" = BuildResult.aborted :=
  ⟨rfl, rfl, rfl⟩

/-- C6 counterexample: for the chapter ["T", "para one.", "para two."] the
body produced by the source's reduce-join is `<p>para one.</p><p>para
two.</p>\n` — no newline between the two wrapped paragraphs and a trailing
newline — which differs from the spec-side newline-separator join. -/
theorem c6_counterexample :
    chapterContent ["T", "para one.", "para two."] = some "<p>para one.</p><p>para two.</p>\n"
    ∧ newlineJoinedBody ["para one.", "para two."] = "<p>para one.</p>\n<p>para two.</p>"
    ∧ "<p>para one.</p><p>para two.</p>\n" ≠ "<p>para one.</p>\n<p>para two.</p>" :=
  ⟨by decide, by decide, by decide⟩

/-- C6 amended: for every chapter with at least two paragraphs, the rendered
body is the first wrapped paragraph concatenated directly (no separator) with
the remaining wrapped paragraphs, each of which is terminated — not
separated — by one newline: `w0 ++ (w1 ++ "\n") ++ ... ++ (wn ++ "\n")`. -/
theorem c6_amended_newline_terminates_tail (t p₀ p₁ : String) (rest : List String) :
    chapterContent (t :: p₀ :: p₁ :: rest)
      = some (wrapP p₀ ++ tailTerminated (wrapP p₁ :: rest.map wrapP)) := by
  show reduceConcatNl ((p₀ :: p₁ :: rest).map wrapP) = _
  simp only [List.map_cons, reduceConcatNl]
  rw [foldl_concatNl]

end EpubGen
